import Mathlib

/-!
Shallow embedding of `asset_allocation_engine.py` (Mutual Fund Asset
Allocation Plan Generator).

Modelling conventions:
* Python numbers (`int`/`float`) are modelled as `ℤ` (ages) and `ℚ`
  (monetary amounts and percentages); arithmetic is exact.
* Python `round(x, 2)` (round-half-to-even on the exact value) is the
  function `round2` below.
* Python dicts are association lists `List (String × α)` with distinct
  keys; `set(a) | set(b)` key unions are enumerated in first-occurrence
  order (Python set order is unspecified, only membership matters).
* `raise ValueError` is modelled by `Except`.
* The f-string emitted by `check_rebalancing_needed` is modelled as a
  `DriftReport` record carrying the interpolated values (fund name,
  target, current, drift); string rendering of numbers is presentation
  only and is not modelled.
* `datetime.now()` timestamps are not modelled (wall-clock).
-/

/-- Association-list lookup, mirroring Python `dict[key]` access order
(first binding wins; the lists we build have distinct keys). -/
def lookupS {α : Type} : List (String × α) → String → Option α
  | [], _ => none
  | (k, v) :: rest, key => if k = key then some v else lookupS rest key

/-- Python `dict.get(key, default)`. -/
def getDS {α : Type} (m : List (String × α)) (key : String) (dflt : α) : α :=
  (lookupS m key).getD dflt

/-- Round a rational to the nearest integer, ties to even — the rounding
mode of the Python built-in `round` applied to the exact value. -/
def pyRoundInt (q : ℚ) : ℤ :=
  let f := ⌊q⌋
  let r := q - (f : ℚ)
  if r < 1/2 then f
  else if 1/2 < r then f + 1
  else if 2 ∣ f then f else f + 1

/-- Python `round(x, 2)`. -/
def round2 (q : ℚ) : ℚ := (pyRoundInt (q * 100) : ℚ) / 100

/-- Python `str.title()` restricted to single-word strings (every key it
is applied to in the source — `index`, `largecap`, `midcap`, `smallcap`,
`FD` — is a single word without `_`, so the subsequent
`.replace("_", " ")` in the source is the identity on them). -/
def pyTitle (s : String) : String :=
  match s.data with
  | [] => ""
  | c :: cs => ⟨Char.toUpper c :: cs.map Char.toLower⟩

/-- `RiskProfile = Literal["conservative", "moderate", "aggressive"]`. -/
inductive RiskProfile
  | conservative
  | moderate
  | aggressive
deriving DecidableEq, Repr

/-- `EquityStrategy` literal type. -/
inductive EquityStrategy
  | index_core
  | market_weighted
  | balanced_growth
  | aggressive_growth
deriving DecidableEq, Repr

/-- `GoalTimeframe` literal type. -/
inductive GoalTimeframe
  | short_term
  | medium_term
  | long_term
deriving DecidableEq, Repr

/-- `UserProfile` dataclass (the `goals` list is never read by
validation or by any allocation computation, so it is omitted). -/
structure UserProfile where
  age : ℤ
  monthly_income : ℚ
  monthly_investment : ℚ
  lump_sum_investment : ℚ := 0
  risk_profile : Option RiskProfile := none
  has_emergency_fund : Bool := false
  has_adequate_insurance : Bool := false
  custom_equity_percentage : Option ℚ := none
deriving DecidableEq, Repr

/-- `UserProfile.validate`: appends one error string per violated rule,
evaluating every check; returns `(len(errors) == 0, errors)`. -/
def UserProfile.validate (p : UserProfile) : Bool × List String :=
  let errors : List String :=
    (if p.age < 18 ∨ p.age > 100 then ["Age must be between 18 and 100"] else [])
    ++ (if p.monthly_income < 0 then ["Monthly income cannot be negative"] else [])
    ++ (if p.monthly_investment < 0 then ["Monthly investment cannot be negative"] else [])
    ++ (if p.monthly_investment > p.monthly_income then
          ["Monthly investment cannot exceed monthly income"] else [])
    ++ (if p.lump_sum_investment < 0 then ["Lumpsum investment cannot be negative"] else [])
    ++ (match p.custom_equity_percentage with
        | some c =>
          if c < 0 ∨ c > 100 then ["Custom equity percentage must be between 0 and 100"] else []
        | none => [])
  (errors.isEmpty, errors)

/-- `FundAllocation` dataclass. -/
structure FundAllocation where
  category : String
  subcategory : String
  percentage : ℚ
  amount : ℚ := 0
  recommended_funds : List String := []
deriving DecidableEq, Repr

/-- `AssetAllocationEngine.equity_templates` (class-level constant). -/
def equity_templates : EquityStrategy → List (String × ℚ)
  | .index_core => [("index", 100)]
  | .market_weighted => [("largecap", 70), ("midcap", 20), ("smallcap", 10)]
  | .balanced_growth => [("largecap", 45), ("midcap", 30), ("smallcap", 25)]
  | .aggressive_growth => [("largecap", 35), ("midcap", 35), ("smallcap", 30)]

/-- `AssetAllocationEngine.debt_templates`: only `long_term` has an
entry; a lookup with any other timeframe raises `KeyError` in Python,
modelled as `none`. -/
def debt_templates : GoalTimeframe → Option (List (String × ℚ))
  | .long_term => some [("FD", 100)]
  | _ => none

/-- `get_equity_allocation_from_risk_profile` module-level function. -/
def get_equity_allocation_from_risk_profile : RiskProfile → ℚ
  | .aggressive => 85
  | .moderate => 65
  | .conservative => 45

/-- `AssetAllocationEngine.calculate_equity_debt_split`. -/
def calculate_equity_debt_split (p : UserProfile) : ℚ × ℚ :=
  match p.custom_equity_percentage with
  | some c =>
    let equity_pct := max 0 (min 100 c)
    (equity_pct, 100 - equity_pct)
  | none =>
    match p.risk_profile with
    | some rp =>
      let equity_pct := get_equity_allocation_from_risk_profile rp
      (equity_pct, 100 - equity_pct)
    | none =>
      let equity_pct := max 20 (min 80 (100 - (p.age : ℚ)))
      (equity_pct, 100 - equity_pct)

/-- `AssetAllocationEngine.get_age_based_strategy`. -/
def get_age_based_strategy (age : ℤ) : EquityStrategy :=
  if age < 35 then .aggressive_growth
  else if age < 50 then .balanced_growth
  else .market_weighted

/-- `AssetAllocationEngine.allocate_equity`: base template rows in
template order, then the optional international row, then the optional
sector row (Python dict insertion order). -/
def allocate_equity (equity_pct : ℚ) (strategy : EquityStrategy)
    (add_international : Bool := false) (sector_allocation : ℚ := 0) :
    List (String × FundAllocation) :=
  let template := equity_templates strategy
  let international_pct : ℚ := if add_international then 10 else 0
  let sector_pct : ℚ := min 15 (max 0 sector_allocation)
  let base_pct : ℚ := 100 - international_pct - sector_pct
  (template.map fun ft =>
    (ft.1, { category := "Equity", subcategory := pyTitle ft.1,
             percentage := round2 ((ft.2 / 100) * (equity_pct * base_pct / 100)) }))
  ++ (if add_international then
        [("international",
          { category := "Equity", subcategory := "International Equity",
            percentage := round2 (equity_pct * international_pct / 100) })]
      else [])
  ++ (if sector_pct > 0 then
        [("sector",
          { category := "Equity", subcategory := "Sector/Thematic",
            percentage := round2 (equity_pct * sector_pct / 100) })]
      else [])

/-- `AssetAllocationEngine.allocate_debt`; `none` models the `KeyError`
on an unsupported timeframe. -/
def allocate_debt (debt_pct : ℚ) (strategy : GoalTimeframe := .long_term) :
    Option (List (String × FundAllocation)) :=
  (debt_templates strategy).map fun template =>
    template.map fun ft =>
      (ft.1, { category := "Debt", subcategory := pyTitle ft.1,
               percentage := round2 ((ft.2 / 100) * debt_pct) })

/-- `AssetAllocationEngine.calculate_fund_amounts`: returns the
allocation rows with their `amount` fields overwritten (modelling the
in-place mutation) together with the parallel name→amount breakdown. -/
def calculate_fund_amounts (allocations : List (String × FundAllocation))
    (total_amount : ℚ) : List (String × FundAllocation) × List (String × ℚ) :=
  (allocations.map fun na =>
     (na.1, { na.2 with amount := round2 ((na.2.percentage / 100) * total_amount) }),
   allocations.map fun na =>
     (na.1, round2 ((na.2.percentage / 100) * total_amount)))

/-- `AssetAllocationEngine.set_rebalancing_triggers`. -/
def set_rebalancing_triggers (allocations : List (String × FundAllocation))
    (drift_threshold : ℚ := 5) : List (String × (ℚ × ℚ)) :=
  allocations.map fun na =>
    (na.1, (round2 (max 0 (na.2.percentage - drift_threshold)),
            round2 (min 100 (na.2.percentage + drift_threshold))))

/-- Emergency-fund warning text. -/
def warnEmergencyFund : String :=
  "⚠️ CRITICAL: Build 6 months of emergency fund before investing heavily in equity. Keep this in liquid/savings accounts for immediate access."

/-- Insurance warning text. -/
def warnInsurance : String :=
  "⚠️ IMPORTANT: Ensure adequate term life insurance (10-15x annual income) and comprehensive health insurance before aggressive equity allocation."

/-- High-equity volatility warning text. -/
def warnHighEquity : String :=
  "⚠️ Very high equity allocation (>80%). Expect significant volatility. Only suitable for investors with 10+ year time horizon and high risk tolerance."

/-- Age-appropriateness warning text. -/
def warnAge : String :=
  "⚠️ At age 60+, consider reducing equity exposure for capital preservation. Current allocation may be aggressive for typical retirement needs."

/-- Low-monthly-investment nudge text. -/
def warnLowInvestment : String :=
  "💡 Consider increasing monthly investment gradually as income grows. Even small increases compound significantly over time."

/-- Over-investing-relative-to-income warning text. -/
def warnOverInvesting : String :=
  "⚠️ Investing >50% of monthly income is aggressive. Ensure you have adequate funds for living expenses and emergencies."

/-- `AssetAllocationEngine.generate_warnings`: sequential conditional
appends, mirroring the `warnings.append` statements of the source. -/
def generate_warnings (p : UserProfile) (equity_pct : ℚ) : List String :=
  let warnings : List String := []
  let warnings := if ¬p.has_emergency_fund ∧ equity_pct > 50
    then warnings ++ [warnEmergencyFund] else warnings
  let warnings := if ¬p.has_adequate_insurance
    then warnings ++ [warnInsurance] else warnings
  let warnings := if equity_pct > 80
    then warnings ++ [warnHighEquity] else warnings
  let warnings := if p.age > 60 ∧ equity_pct > 50
    then warnings ++ [warnAge] else warnings
  let warnings := if p.monthly_investment < 5000
    then warnings ++ [warnLowInvestment] else warnings
  let investShare : ℚ :=
    if p.monthly_income > 0 then p.monthly_investment / p.monthly_income * 100 else 0
  let warnings := if investShare > 50
    then warnings ++ [warnOverInvesting] else warnings
  warnings

/-- Simplicity recommendation text (an f-string with no placeholder in
the source, trailing space included). -/
def recSimplicity : String :=
  "📋 SIMPLICITY: Keep portfolio simple with 5-7 funds total. "

/-- Rebalancing-discipline recommendation text. -/
def recRebalancing : String :=
  "🔄 REBALANCING: Review portfolio annually. Rebalance when any allocation drifts 5-10% from target. Sell outperformers, buy underperformers to maintain risk profile."

/-- No-market-timing recommendation text (ASCII apostrophes of the
source rendered as typographic quotes). -/
def recNoTiming : String :=
  "⏱️ NO MARKET TIMING: Never try to time the market. Use ’thali approach’ - maintain diversified portions matching your age, goals, and risk appetite."

/-- Index-fund recommendation text. -/
def recIndexFunds : String :=
  "📊 INDEX FUNDS: Use low-cost index funds (Nifty 50/Sensex) as core equity holdings. They provide market returns with minimal expense ratios (0.05-0.20%)."

/-- SIP-discipline recommendation text. -/
def recSipDiscipline : String :=
  "💰 SIP DISCIPLINE: Continue SIPs regardless of market conditions. Rupee cost averaging works best over 10+ years. Increase SIPs with salary growth."

/-- Goal-based recommendation text. -/
def recGoalBased : String :=
  "🎯 GOAL-BASED: Align investments with specific goals. Short-term (<3 years) → Debt funds. Long-term (10+ years) → Equity funds."

/-- Tax-efficiency recommendation text. -/
def recTaxEfficiency : String :=
  "💸 TAX EFFICIENCY: Hold equity funds >1 year for LTCG tax benefits. Consider ELSS for Section 80C deductions (3-year lock-in)."

/-- Fund-selection recommendation text. -/
def recFundSelection : String :=
  "🔍 FUND SELECTION: Choose funds with consistent top-quartile performance over 10+ years. Prioritize low expense ratios and experienced fund managers."

/-- Review-schedule recommendation text (source typo preserved). -/
def recReviewSchedule : String :=
  "📅 REVIEW SCHEDULE: Review portfolio quarterly but rebalance only when portfolio allocation across catogaries changes beyond 5-10% threshold. "

/-- `AssetAllocationEngine.generate_recommendations`: the `num_funds`
parameter is accepted exactly as in the source, where it is never read. -/
def generate_recommendations (p : UserProfile) (equity_pct : ℚ) (num_funds : ℕ) :
    List String :=
  let recs : List String := []
  let recs := recs ++ [recSimplicity]
  let recs := recs ++ [recRebalancing]
  let recs := recs ++ [recNoTiming]
  let recs := if equity_pct > 30 then recs ++ [recIndexFunds] else recs
  let recs := if p.monthly_investment > 0 then recs ++ [recSipDiscipline] else recs
  let recs := recs ++ [recGoalBased]
  let recs := if equity_pct > 40 then recs ++ [recTaxEfficiency] else recs
  let recs := recs ++ [recFundSelection]
  let recs := recs ++ [recReviewSchedule]
  recs

/-- Failure outcomes of `create_plan`: the `ValueError` raised for an
invalid profile (with its message) and the `KeyError` raised by the
debt-template lookup for an unsupported timeframe. -/
inductive PlanError
  | invalidProfile (msg : String)
  | unsupportedDebtTimeframe
deriving DecidableEq, Repr

/-- `AssetAllocationPlan` dataclass (the `created_at` wall-clock
timestamp is not modelled). -/
structure AssetAllocationPlan where
  user_profile : UserProfile
  equity_percentage : ℚ
  debt_percentage : ℚ
  equity_allocations : List (String × FundAllocation)
  debt_allocations : List (String × FundAllocation)
  monthly_sip_breakdown : List (String × ℚ)
  lumpsum_breakdown : List (String × ℚ)
  rebalancing_triggers : List (String × (ℚ × ℚ))
  warnings : List String
  recommendations : List String
deriving DecidableEq, Repr

/-- `AssetAllocationEngine.create_plan`. In the source the
`FundAllocation` rows inside `equity_allocs`/`debt_allocs` are the very
objects aliased into `all_allocations`, so both `calculate_fund_amounts`
calls mutate them in place; the model threads that state explicitly and
recovers the plan fields `equity_allocations`/`debt_allocations` as the
corresponding segments of the twice-updated merged list (the merge
`{**equity_allocs, **debt_allocs}` concatenates, keys being disjoint). -/
def create_plan (p : UserProfile)
    (equity_strategy : Option EquityStrategy := none)
    (debt_strategy : GoalTimeframe := .long_term)
    (add_international : Bool := false)
    (sector_allocation : ℚ := 0)
    (drift_threshold : ℚ := 5) : Except PlanError AssetAllocationPlan :=
  let v := p.validate
  if v.1 = false then
    .error (.invalidProfile ("Invalid profile: " ++ String.intercalate ", " v.2))
  else
    let split := calculate_equity_debt_split p
    let equity_pct := split.1
    let debt_pct := split.2
    let strat := equity_strategy.getD (get_age_based_strategy p.age)
    let equity_allocs := allocate_equity equity_pct strat add_international sector_allocation
    match allocate_debt debt_pct debt_strategy with
    | none => .error .unsupportedDebtTimeframe
    | some debt_allocs =>
      let all_allocations := equity_allocs ++ debt_allocs
      let r1 := calculate_fund_amounts all_allocations p.monthly_investment
      let monthly_sip := r1.2
      let r2 := calculate_fund_amounts r1.1 p.lump_sum_investment
      let all_after := r2.1
      let lumpsum := r2.2
      let triggers := set_rebalancing_triggers all_after drift_threshold
      let warnings := generate_warnings p equity_pct
      let recommendations := generate_recommendations p equity_pct all_allocations.length
      .ok { user_profile := p
            equity_percentage := round2 equity_pct
            debt_percentage := round2 debt_pct
            equity_allocations := all_after.take equity_allocs.length
            debt_allocations := all_after.drop equity_allocs.length
            monthly_sip_breakdown := monthly_sip
            lumpsum_breakdown := lumpsum
            rebalancing_triggers := triggers
            warnings := warnings
            recommendations := recommendations }

/-- `PortfolioRebalancer.calculate_current_allocation`. -/
def calculate_current_allocation (current_values : List (String × ℚ)) :
    List (String × ℚ) :=
  let total := (current_values.map (·.2)).sum
  if total ≤ 0 then []
  else current_values.map fun fv => (fv.1, round2 (fv.2 / total * 100))

/-- `PortfolioRebalancer.calculate_rebalance_trades`. The key union
`set(current) | set(target)` is enumerated in first-occurrence order. -/
def calculate_rebalance_trades (current_values target_allocation_pct : List (String × ℚ)) :
    Except String (List (String × ℚ)) :=
  let total_value := (current_values.map (·.2)).sum
  if total_value ≤ 0 then .error "Current portfolio value must be positive"
  else
    let funds := (current_values.map Prod.fst ++ target_allocation_pct.map Prod.fst).dedup
    .ok (funds.filterMap fun fund =>
      let target_pct := getDS target_allocation_pct fund 0
      let target_val := (target_pct / 100) * total_value
      let current_val := getDS current_values fund 0
      let trade_amount := target_val - current_val
      if |trade_amount| > 100 then some (fund, round2 trade_amount) else none)

/-- The data interpolated into the drift-description f-string of
`check_rebalancing_needed` (`"{fund}: Target {target}%, Current
{current}%, Drift {drift:.1f}%"`): the string itself is presentation,
the record carries its fields. -/
structure DriftReport where
  fund : String
  target : ℚ
  current : ℚ
  drift : ℚ
deriving DecidableEq, Repr

/-- `PortfolioRebalancer.check_rebalancing_needed`. -/
def check_rebalancing_needed (current_pct target_pct : List (String × ℚ))
    (drift_threshold : ℚ := 5) : Bool × List DriftReport :=
  let drifted_funds := target_pct.filterMap fun ft =>
    let current := getDS current_pct ft.1 0
    let drift := |current - ft.2|
    if drift ≥ drift_threshold then
      some { fund := ft.1, target := ft.2, current := current, drift := drift }
    else none
  (drifted_funds.length > 0, drifted_funds)

/-! ## Shared auxiliary lemmas -/

theorem pyRoundInt_sub_le (q : ℚ) : |(pyRoundInt q : ℚ) - q| ≤ 1/2 := by
  have h0 : (0 : ℚ) ≤ q - ⌊q⌋ := by
    have := Int.floor_le q; linarith
  have h1 : q - ⌊q⌋ < 1 := by
    have := Int.lt_floor_add_one q; linarith
  simp only [pyRoundInt]
  split_ifs with ha hb hc <;> rw [abs_le] <;> constructor <;> push_cast <;> linarith

theorem round2_sub_le (q : ℚ) : |round2 q - q| ≤ 1/200 := by
  have h := pyRoundInt_sub_le (q * 100)
  unfold round2
  have he : (pyRoundInt (q * 100) : ℚ) / 100 - q = ((pyRoundInt (q * 100) : ℚ) - q * 100) / 100 := by
    ring
  rw [he, abs_div, abs_of_pos (show (0 : ℚ) < 100 by norm_num)]
  linarith

/-! ## Claim theorems -/

/-- C2: `calculate_equity_debt_split` follows the priority order —
custom equity percentage (clamped to `[0,100]`) first, then the
risk-profile table (aggressive 85, moderate 65, conservative 45), then
the `100 − age` heuristic clamped to `[20,80]`; and the returned debt
percentage always equals `100` minus the returned equity percentage. -/
theorem calculate_equity_debt_split_priority (p : UserProfile) :
    (∀ c, p.custom_equity_percentage = some c →
      (calculate_equity_debt_split p).1 = max 0 (min 100 c))
    ∧ (p.custom_equity_percentage = none →
        ∀ rp, p.risk_profile = some rp →
          (calculate_equity_debt_split p).1 =
            (match rp with
             | .aggressive => (85 : ℚ)
             | .moderate => 65
             | .conservative => 45))
    ∧ (p.custom_equity_percentage = none → p.risk_profile = none →
        (calculate_equity_debt_split p).1 = max 20 (min 80 (100 - (p.age : ℚ))))
    ∧ (calculate_equity_debt_split p).2 = 100 - (calculate_equity_debt_split p).1 := by
  refine ⟨fun c hc => ?_, fun hn rp hr => ?_, fun hn hr => ?_, ?_⟩
  · simp [calculate_equity_debt_split, hc]
  · simp only [calculate_equity_debt_split, hn, hr]
    cases rp <;> rfl
  · simp [calculate_equity_debt_split, hn, hr]
  · unfold calculate_equity_debt_split
    rcases p.custom_equity_percentage with _ | c
    · rcases p.risk_profile with _ | rp <;> rfl
    · rfl

/-- Witness for C2 at a concrete profile with a moderate risk profile
and no custom equity percentage: the split is 65/35. -/
theorem calculate_equity_debt_split_priority_witness :
    (calculate_equity_debt_split
      { age := 40, monthly_income := 50000, monthly_investment := 10000,
        risk_profile := some .moderate } : ℚ × ℚ).1 = 65 := by
  have h := (calculate_equity_debt_split_priority
    { age := 40, monthly_income := 50000, monthly_investment := 10000,
      risk_profile := some .moderate }).2.1 rfl .moderate rfl
  simpa using h

/-- C6: when the total of the current-values map is ≤ 0,
`calculate_rebalance_trades` fails with the invalid-input message while
`calculate_current_allocation` returns the empty mapping; for a positive
total `calculate_rebalance_trades` never signals a failure. -/
theorem rebalancer_zero_total_behaviour (cur tgt : List (String × ℚ)) :
    ((cur.map (·.2)).sum ≤ 0 →
      calculate_rebalance_trades cur tgt = .error "Current portfolio value must be positive"
      ∧ calculate_current_allocation cur = [])
    ∧ (0 < (cur.map (·.2)).sum →
        ∀ e, calculate_rebalance_trades cur tgt ≠ .error e) := by
  constructor
  · intro h
    refine ⟨?_, ?_⟩
    · simp [calculate_rebalance_trades, h]
    · simp [calculate_current_allocation, h]
  · intro h e
    simp [calculate_rebalance_trades, not_le.mpr h]

/-- Witness for C6 on the empty portfolio (total 0). -/
theorem rebalancer_zero_total_behaviour_witness :
    calculate_rebalance_trades [] [("largecap", (70 : ℚ))]
        = .error "Current portfolio value must be positive"
      ∧ calculate_current_allocation ([] : List (String × ℚ)) = [] :=
  (rebalancer_zero_total_behaviour [] [("largecap", 70)]).1 (by simp)

/-- The fund names reported by `check_rebalancing_needed` form a
sublist of the target-map keys (helper for C7). -/
theorem check_rebalancing_fund_sublist (cur : List (String × ℚ)) (th : ℚ)
    (tgt : List (String × ℚ)) :
    (((check_rebalancing_needed cur tgt th).2).map DriftReport.fund).Sublist
      (tgt.map Prod.fst) := by
  induction tgt with
  | nil => simp [check_rebalancing_needed]
  | cons ft rest ih =>
    simp only [check_rebalancing_needed, List.filterMap_cons, List.map_cons] at *
    by_cases hcond : |getDS cur ft.1 0 - ft.2| ≥ th
    · rw [if_pos hcond]
      simpa using ih.cons₂ ft.1
    · rw [if_neg hcond]
      exact ih.cons ft.1

/-- C7: `check_rebalancing_needed` reports, per category of the target
map, exactly those whose drift `|current − target|` (current defaulting
to 0 for absent categories) is at least the threshold; `needed` is true
exactly when the report list is non-empty; at most one report is emitted
per category; and on `currentPct={largecap:75}`,
`targetPct={largecap:70, midcap:30}`, threshold 5, it returns
`needed=true` with exactly one largecap report (drift 5) and one midcap
report (drift 30). -/
theorem check_rebalancing_needed_spec (cur tgt : List (String × ℚ)) (th : ℚ) :
    ((check_rebalancing_needed cur tgt th).1 = true
      ↔ (check_rebalancing_needed cur tgt th).2 ≠ [])
    ∧ (∀ f t, (f, t) ∈ tgt →
        (({ fund := f, target := t, current := getDS cur f 0,
            drift := |getDS cur f 0 - t| } : DriftReport)
            ∈ (check_rebalancing_needed cur tgt th).2
          ↔ th ≤ |getDS cur f 0 - t|))
    ∧ (∀ r ∈ (check_rebalancing_needed cur tgt th).2,
        (r.fund, r.target) ∈ tgt ∧ r.current = getDS cur r.fund 0
          ∧ r.drift = |r.current - r.target| ∧ th ≤ r.drift)
    ∧ ((tgt.map Prod.fst).Nodup →
        (((check_rebalancing_needed cur tgt th).2).map DriftReport.fund).Nodup)
    ∧ check_rebalancing_needed [("largecap", 75)] [("largecap", 70), ("midcap", 30)] 5
        = (true, [{ fund := "largecap", target := 70, current := 75, drift := 5 },
                  { fund := "midcap", target := 30, current := 0, drift := 30 }]) := by
  refine ⟨?_, ?_, ?_, fun hn => (check_rebalancing_fund_sublist cur th tgt).nodup hn, ?_⟩
  · simp [check_rebalancing_needed, List.length_pos]
  · intro f t hft
    constructor
    · intro hmem
      simp only [check_rebalancing_needed, List.mem_filterMap] at hmem
      obtain ⟨a, _, ha⟩ := hmem
      by_cases hcond : |getDS cur a.1 0 - a.2| ≥ th
      · rw [if_pos hcond] at ha
        have h2 := congrArg DriftReport.target (Option.some.inj ha)
        have h1 := congrArg DriftReport.fund (Option.some.inj ha)
        simp only at h1 h2
        rw [← h1, ← h2]
        exact hcond
      · rw [if_neg hcond] at ha
        exact absurd ha (by simp)
    · intro hcond
      simp only [check_rebalancing_needed, List.mem_filterMap]
      exact ⟨(f, t), hft, by rw [if_pos hcond]⟩
  · intro r hr
    simp only [check_rebalancing_needed, List.mem_filterMap] at hr
    obtain ⟨a, ha, hfa⟩ := hr
    by_cases hcond : |getDS cur a.1 0 - a.2| ≥ th
    · rw [if_pos hcond] at hfa
      obtain rfl := Option.some.inj hfa
      exact ⟨ha, rfl, rfl, hcond⟩
    · rw [if_neg hcond] at hfa
      exact absurd hfa (by simp)
  · simp only [check_rebalancing_needed, getDS, lookupS, List.filterMap_cons]
    simp
    norm_num

/-- Witness for the general part of C7: the largecap drift report is present
at the boundary drift 5 with threshold 5. -/
theorem check_rebalancing_needed_spec_witness :
    ({ fund := "largecap", target := 70, current := 75, drift := 5 } : DriftReport)
      ∈ (check_rebalancing_needed [("largecap", 75)] [("largecap", 70), ("midcap", 30)] 5).2 := by
  have he : getDS [("largecap", (75 : ℚ))] "largecap" 0 = 75 := by
    simp [getDS, lookupS]
  have h := ((check_rebalancing_needed_spec [("largecap", 75)]
    [("largecap", 70), ("midcap", 30)] 5).2.1 "largecap" 70 (by simp)).mpr
    (by rw [he]; norm_num)
  rw [he] at h
  have hd : |(75 : ℚ) - 70| = 5 := by norm_num
  rw [hd] at h
  exact h

/-- Membership in a conditional singleton prefix (helper lemma). -/
theorem mem_ite_singleton {α : Type} {c : Prop} [Decidable c] {a x : α} {l : List α} :
    a ∈ (if c then [x] else []) ++ l ↔ (c ∧ a = x) ∨ a ∈ l := by
  by_cases h : c <;> simp [h]

/-- A conditional append at the tail of an accumulator equals the
accumulator followed by a conditional singleton (helper lemma). -/
theorem ite_append_singleton {α : Type} (c : Prop) [Decidable c] (acc : List α) (w : α) :
    (if c then acc ++ [w] else acc) = acc ++ (if c then [w] else []) := by
  split <;> simp

/-- C8: `generate_warnings` emits, in order, exactly the applicable
warnings: emergency fund (no fund and equity > 50), insurance (not
adequately insured), high volatility (equity > 80), age (age > 60 and
equity > 50), low investment (monthly investment < 5000), over-investing
(investment-to-income ratio above 50%, the ratio being 0 when income is
not positive) — each present exactly when its condition holds. -/
theorem generate_warnings_spec (p : UserProfile) (equity_pct : ℚ) :
    generate_warnings p equity_pct =
      (if ¬p.has_emergency_fund ∧ equity_pct > 50 then [warnEmergencyFund] else [])
      ++ (if ¬p.has_adequate_insurance then [warnInsurance] else [])
      ++ (if equity_pct > 80 then [warnHighEquity] else [])
      ++ (if p.age > 60 ∧ equity_pct > 50 then [warnAge] else [])
      ++ (if p.monthly_investment < 5000 then [warnLowInvestment] else [])
      ++ (if (if p.monthly_income > 0 then p.monthly_investment / p.monthly_income * 100 else 0) > 50
          then [warnOverInvesting] else [])
    ∧ (warnEmergencyFund ∈ generate_warnings p equity_pct
        ↔ ¬p.has_emergency_fund ∧ equity_pct > 50)
    ∧ (warnInsurance ∈ generate_warnings p equity_pct ↔ ¬p.has_adequate_insurance)
    ∧ (warnHighEquity ∈ generate_warnings p equity_pct ↔ equity_pct > 80)
    ∧ (warnAge ∈ generate_warnings p equity_pct ↔ p.age > 60 ∧ equity_pct > 50)
    ∧ (warnLowInvestment ∈ generate_warnings p equity_pct ↔ p.monthly_investment < 5000)
    ∧ (warnOverInvesting ∈ generate_warnings p equity_pct
        ↔ (if p.monthly_income > 0 then p.monthly_investment / p.monthly_income * 100 else 0) > 50) := by
  have heq : generate_warnings p equity_pct =
      (if ¬p.has_emergency_fund ∧ equity_pct > 50 then [warnEmergencyFund] else [])
      ++ (if ¬p.has_adequate_insurance then [warnInsurance] else [])
      ++ (if equity_pct > 80 then [warnHighEquity] else [])
      ++ (if p.age > 60 ∧ equity_pct > 50 then [warnAge] else [])
      ++ (if p.monthly_investment < 5000 then [warnLowInvestment] else [])
      ++ (if (if p.monthly_income > 0 then p.monthly_investment / p.monthly_income * 100 else 0) > 50
          then [warnOverInvesting] else []) := by
    simp only [generate_warnings, ite_append_singleton]
    simp only [List.nil_append, List.append_assoc]
  refine ⟨heq, ?_, ?_, ?_, ?_, ?_, ?_⟩ <;> rw [heq] <;>
    simp [mem_ite_singleton, warnEmergencyFund, warnInsurance, warnHighEquity,
      warnAge, warnLowInvestment, warnOverInvesting]

/-- Witness for C8: a 30-year-old with no emergency fund at equity 70
receives the critical emergency-fund warning; flipping
`has_emergency_fund` removes exactly that warning. -/
theorem generate_warnings_spec_witness :
    warnEmergencyFund ∈ generate_warnings
      { age := 30, monthly_income := 100000, monthly_investment := 30000 } 70
    ∧ warnEmergencyFund ∉ generate_warnings
      { age := 30, monthly_income := 100000, monthly_investment := 30000,
        has_emergency_fund := true } 70 :=
  ⟨(generate_warnings_spec
      { age := 30, monthly_income := 100000, monthly_investment := 30000 } 70).2.1.mpr
    ⟨by simp, by norm_num⟩,
   fun hmem => by
    have h := (generate_warnings_spec
      { age := 30, monthly_income := 100000, monthly_investment := 30000,
        has_emergency_fund := true } 70).2.1.mp hmem
    simp at h⟩

/-- C10 (implicit): `generate_recommendations` never reads its
`num_funds` argument — any two fund counts give the same output — and
its conditional recommendations depend only on the equity percentage
(index funds iff equity > 30, tax efficiency iff equity > 40) and on the
monthly investment (SIP discipline iff it is positive). -/
theorem generate_recommendations_num_funds_independent (p : UserProfile) (equity_pct : ℚ)
    (n1 n2 : ℕ) :
    generate_recommendations p equity_pct n1 = generate_recommendations p equity_pct n2
    ∧ (recIndexFunds ∈ generate_recommendations p equity_pct n1 ↔ equity_pct > 30)
    ∧ (recSipDiscipline ∈ generate_recommendations p equity_pct n1 ↔ p.monthly_investment > 0)
    ∧ (recTaxEfficiency ∈ generate_recommendations p equity_pct n1 ↔ equity_pct > 40) := by
  refine ⟨rfl, ?_, ?_, ?_⟩ <;>
    (simp only [generate_recommendations]
     split_ifs <;>
       simp_all [recSimplicity, recRebalancing, recNoTiming, recIndexFunds, recSipDiscipline,
         recGoalBased, recTaxEfficiency, recFundSelection, recReviewSchedule])

/-- Witness for C10: fund counts 4 and 9 give identical output on a
concrete profile. -/
theorem generate_recommendations_num_funds_independent_witness :
    generate_recommendations
        { age := 30, monthly_income := 100000, monthly_investment := 30000 } 70 4
      = generate_recommendations
        { age := 30, monthly_income := 100000, monthly_investment := 30000 } 70 9 :=
  (generate_recommendations_num_funds_independent
    { age := 30, monthly_income := 100000, monthly_investment := 30000 } 70 4 9).1

/-- C3: `allocate_equity` with international requested adds an
`"International Equity"` row of exactly `round2 (equityPct*10/100)` (and
no such row otherwise); it clamps the sector percentage to `[0,15]` and
adds a `"Sector/Thematic"` row of `round2 (equityPct*sectorPct/100)`
exactly when the clamped sector percentage is positive; and every base
template row is `round2 (templateShare/100 * (equityPct * basePct/100))`
with `basePct = 100 − internationalPct − sectorPct` (in particular 90
with international only). -/
theorem allocate_equity_rows (equity_pct sector_allocation : ℚ)
    (strategy : EquityStrategy) (add_international : Bool) :
    (0 ≤ min 15 (max 0 sector_allocation) ∧ min 15 (max 0 sector_allocation) ≤ 15)
    ∧ (add_international = true →
        lookupS (allocate_equity equity_pct strategy add_international sector_allocation)
            "international"
          = some { category := "Equity", subcategory := "International Equity",
                   percentage := round2 (equity_pct * 10 / 100) })
    ∧ (add_international = false →
        lookupS (allocate_equity equity_pct strategy add_international sector_allocation)
            "international" = none)
    ∧ (min 15 (max 0 sector_allocation) > 0 →
        lookupS (allocate_equity equity_pct strategy add_international sector_allocation)
            "sector"
          = some { category := "Equity", subcategory := "Sector/Thematic",
                   percentage := round2 (equity_pct * min 15 (max 0 sector_allocation) / 100) })
    ∧ (¬min 15 (max 0 sector_allocation) > 0 →
        lookupS (allocate_equity equity_pct strategy add_international sector_allocation)
            "sector" = none)
    ∧ (∀ ft tp, (ft, tp) ∈ equity_templates strategy →
        lookupS (allocate_equity equity_pct strategy add_international sector_allocation) ft
          = some { category := "Equity", subcategory := pyTitle ft,
                   percentage := round2 ((tp / 100) * (equity_pct *
                     (100 - (if add_international then (10 : ℚ) else 0)
                        - min 15 (max 0 sector_allocation)) / 100)) })
    ∧ (add_international = true → sector_allocation ≤ 0 →
        100 - (if add_international then (10 : ℚ) else 0) - min 15 (max 0 sector_allocation)
          = 90) := by
  refine ⟨⟨le_min (by norm_num) (le_max_left 0 _), min_le_left _ _⟩, ?_, ?_, ?_, ?_, ?_, ?_⟩
  · intro hai
    subst hai
    cases strategy <;>
      simp [allocate_equity, equity_templates, lookupS]
  · intro hai
    subst hai
    by_cases hs : min 15 (max 0 sector_allocation) > 0 <;>
      cases strategy <;>
        simp [allocate_equity, equity_templates, lookupS, hs]
  · intro hs
    cases add_international <;>
      cases strategy <;>
        simp [allocate_equity, equity_templates, lookupS, hs]
  · intro hs
    cases add_international <;>
      cases strategy <;>
        simp [allocate_equity, equity_templates, lookupS, hs]
  · intro ft tp hmem
    cases strategy with
    | index_core =>
      simp only [equity_templates, List.mem_singleton, Prod.mk.injEq] at hmem
      obtain ⟨rfl, rfl⟩ := hmem
      simp [allocate_equity, equity_templates, lookupS, pyTitle]
    | market_weighted =>
      simp only [equity_templates, List.mem_cons, List.not_mem_nil, or_false,
        Prod.mk.injEq] at hmem
      rcases hmem with ⟨rfl, rfl⟩ | ⟨rfl, rfl⟩ | ⟨rfl, rfl⟩ <;>
        simp [allocate_equity, equity_templates, lookupS, pyTitle]
    | balanced_growth =>
      simp only [equity_templates, List.mem_cons, List.not_mem_nil, or_false,
        Prod.mk.injEq] at hmem
      rcases hmem with ⟨rfl, rfl⟩ | ⟨rfl, rfl⟩ | ⟨rfl, rfl⟩ <;>
        simp [allocate_equity, equity_templates, lookupS, pyTitle]
    | aggressive_growth =>
      simp only [equity_templates, List.mem_cons, List.not_mem_nil, or_false,
        Prod.mk.injEq] at hmem
      rcases hmem with ⟨rfl, rfl⟩ | ⟨rfl, rfl⟩ | ⟨rfl, rfl⟩ <;>
        simp [allocate_equity, equity_templates, lookupS, pyTitle]
  · intro hai hs
    subst hai
    have hmax : max 0 sector_allocation = 0 := max_eq_left hs
    rw [hmax]
    norm_num

/-- Witness for C3: with `equityPct = 70`, international requested and
no sector request, the international row is `round2 (70*10/100) = 7`. -/
theorem allocate_equity_rows_witness :
    lookupS (allocate_equity 70 .aggressive_growth true 0) "international"
      = some { category := "Equity", subcategory := "International Equity",
               percentage := round2 (70 * 10 / 100) } :=
  (allocate_equity_rows 70 0 .aggressive_growth true).2.1 rfl

/-- The aggregate two-decimal rounding error over a list is at most
`1/200` per element (helper lemma). -/
theorem sum_round2_le (l : List ℚ) :
    |(l.map round2).sum - l.sum| ≤ (l.length : ℚ) * (1/200) := by
  induction l with
  | nil => simp
  | cons x xs ih =>
    simp only [List.map_cons, List.sum_cons, List.length_cons]
    have h1 := round2_sub_le x
    have hsplit : round2 x + (xs.map round2).sum - (x + xs.sum)
        = (round2 x - x) + ((xs.map round2).sum - xs.sum) := by ring
    rw [hsplit]
    calc |(round2 x - x) + ((xs.map round2).sum - xs.sum)|
        ≤ |round2 x - x| + |(xs.map round2).sum - xs.sum| := abs_add _ _
      _ ≤ 1/200 + (xs.length : ℚ) * (1/200) := add_le_add h1 ih
      _ = ((xs.length + 1 : ℕ) : ℚ) * (1/200) := by push_cast; ring

/-- C4: for every equity percentage in `[0,100]` and every strategy and
carve-out request, the `allocate_equity` row percentages sum to the
equity percentage within `0.1`; and for every debt percentage and every
supported timeframe, the `allocate_debt` row percentages sum to the debt
percentage within `0.1`. -/
theorem allocation_sum_tolerance (equity_pct debt_pct sector_allocation : ℚ)
    (strategy : EquityStrategy) (add_international : Bool)
    (h0 : 0 ≤ equity_pct) (h1 : equity_pct ≤ 100) :
    |((allocate_equity equity_pct strategy add_international sector_allocation).map
        (fun r => r.2.percentage)).sum - equity_pct| ≤ 1/10
    ∧ ∀ tf allocs, allocate_debt debt_pct tf = some allocs →
        |(allocs.map (fun r => r.2.percentage)).sum - debt_pct| ≤ 1/10 := by
  constructor
  · set s : ℚ := min 15 (max 0 sector_allocation) with hs_def
    have hs0 : 0 ≤ s := le_min (by norm_num) (le_max_left 0 _)
    set b : ℚ := 100 - (if add_international then (10 : ℚ) else 0) - s with hb_def
    set L : List ℚ :=
      (equity_templates strategy).map (fun ft => (ft.2 / 100) * (equity_pct * b / 100))
      with hL_def
    have hLsum : L.sum = equity_pct * b / 100 := by
      rw [hL_def]
      cases strategy <;> (simp [equity_templates]; try ring)
    have hLlen : (L.length : ℚ) ≤ 3 := by
      rw [hL_def]
      cases strategy <;> simp [equity_templates]
    have hkey := sum_round2_le L
    have hkey3 : |(L.map round2).sum - L.sum| ≤ 3 * (1/200) :=
      le_trans hkey (by
        have : (L.length : ℚ) * (1/200) ≤ 3 * (1/200) := by
          apply mul_le_mul_of_nonneg_right hLlen (by norm_num)
        linarith)
    have hmap : ∀ (tl : List (String × ℚ)),
        ((tl.map fun ft =>
            (ft.1, ({ category := "Equity"
                      subcategory := pyTitle ft.1
                      percentage := round2 ((ft.2 / 100) * (equity_pct * b / 100)) } :
              FundAllocation))).map
          (fun r => r.2.percentage)).sum
        = ((tl.map fun ft => (ft.2 / 100) * (equity_pct * b / 100)).map round2).sum := by
      intro tl
      rw [List.map_map, List.map_map]
      rfl
    have hrows : ((allocate_equity equity_pct strategy add_international
          sector_allocation).map (fun r => r.2.percentage)).sum
        = (L.map round2).sum
          + (if add_international then round2 (equity_pct * 10 / 100) else 0)
          + (if s > 0 then round2 (equity_pct * s / 100) else 0) := by
      rw [hL_def]
      simp only [allocate_equity, List.map_append, List.sum_append, ← hs_def, ← hb_def]
      rw [hmap]
      cases add_international <;> by_cases hs : s > 0 <;> simp [hs]
    rw [hrows]
    cases add_international <;> by_cases hs : s > 0
    · -- no international, sector present
      have hxs := abs_le.mp (round2_sub_le (equity_pct * s / 100))
      have hkey' := abs_le.mp hkey3
      have hid : equity_pct * b / 100 + equity_pct * s / 100 = equity_pct := by
        rw [hb_def, if_neg (by simp)]; ring
      rw [if_neg (by simp), if_pos hs, abs_le]
      constructor <;> rw [hLsum] at hkey' <;> linarith
    · -- no international, no sector
      have hkey' := abs_le.mp hkey3
      have hseq : s = 0 := le_antisymm (not_lt.mp hs) hs0
      have hid : equity_pct * b / 100 = equity_pct := by
        rw [hb_def, hseq, if_neg (by simp)]; ring
      rw [if_neg (by simp), if_neg hs, abs_le]
      constructor <;> rw [hLsum] at hkey' <;> linarith
    · -- international, sector present
      have hxi := abs_le.mp (round2_sub_le (equity_pct * 10 / 100))
      have hxs := abs_le.mp (round2_sub_le (equity_pct * s / 100))
      have hkey' := abs_le.mp hkey3
      have hid : equity_pct * b / 100 + equity_pct * 10 / 100 + equity_pct * s / 100
          = equity_pct := by
        rw [hb_def, if_pos rfl]; ring
      rw [if_pos rfl, if_pos hs, abs_le]
      constructor <;> rw [hLsum] at hkey' <;> linarith
    · -- international, no sector
      have hxi := abs_le.mp (round2_sub_le (equity_pct * 10 / 100))
      have hkey' := abs_le.mp hkey3
      have hseq : s = 0 := le_antisymm (not_lt.mp hs) hs0
      have hid : equity_pct * b / 100 + equity_pct * 10 / 100 = equity_pct := by
        rw [hb_def, hseq, if_pos rfl]; ring
      rw [if_pos rfl, if_neg hs, abs_le]
      constructor <;> rw [hLsum] at hkey' <;> linarith
  · intro tf allocs halloc
    cases tf <;> simp [allocate_debt, debt_templates] at halloc
    subst halloc
    simp only [List.map_cons, List.map_nil, List.sum_cons, List.sum_nil, add_zero]
    have h := abs_le.mp (round2_sub_le ((100 / 100) * debt_pct))
    have hh : (100 : ℚ) / 100 * debt_pct = debt_pct := by norm_num
    rw [hh] at h
    rw [abs_le]
    constructor <;> linarith [h.1, h.2]

/-- Witness for C4 at `equityPct = 70`, `debtPct = 30`,
aggressive-growth strategy with international, long-term debt. -/
theorem allocation_sum_tolerance_witness :
    |((allocate_equity 70 .aggressive_growth true 0).map
        (fun r => r.2.percentage)).sum - 70| ≤ 1/10 :=
  (allocation_sum_tolerance 70 30 0 .aggressive_growth true
    (by norm_num) (by norm_num)).1

/-- A conditional singleton is empty exactly when its condition fails
(helper lemma). -/
theorem ite_singleton_eq_nil {α : Type} {c : Prop} [Decidable c] {x : α} :
    (if c then [x] else []) = [] ↔ ¬c := by
  by_cases h : c <;> simp [h]

/-- Membership in a bare conditional singleton (helper lemma). -/
theorem mem_ite_singleton_nil {α : Type} {c : Prop} [Decidable c] {a x : α} :
    a ∈ (if c then [x] else []) ↔ c ∧ a = x := by
  by_cases h : c <;> simp [h]

/-- C1: `create_plan` signals the invalid-profile failure exactly when
some validation rule is violated (age outside `[18,100]`, negative
income, negative monthly investment, monthly investment above income,
negative lump sum, or an out-of-range custom equity percentage); each
violated rule contributes its own message to the validation error list
(all checks are evaluated, none short-circuits); and the failure message
is the aggregation of that whole list. -/
theorem create_plan_validation (p : UserProfile) (es : Option EquityStrategy)
    (ds : GoalTimeframe) (ai : Bool) (sa dt : ℚ) :
    ((∃ msg, create_plan p es ds ai sa dt = .error (.invalidProfile msg))
      ↔ ((p.age < 18 ∨ p.age > 100) ∨ p.monthly_income < 0 ∨ p.monthly_investment < 0
          ∨ p.monthly_investment > p.monthly_income ∨ p.lump_sum_investment < 0
          ∨ (∃ c, p.custom_equity_percentage = some c ∧ (c < 0 ∨ c > 100))))
    ∧ ((p.age < 18 ∨ p.age > 100) ↔ "Age must be between 18 and 100" ∈ (p.validate).2)
    ∧ (p.monthly_income < 0 ↔ "Monthly income cannot be negative" ∈ (p.validate).2)
    ∧ (p.monthly_investment < 0 ↔ "Monthly investment cannot be negative" ∈ (p.validate).2)
    ∧ (p.monthly_investment > p.monthly_income
        ↔ "Monthly investment cannot exceed monthly income" ∈ (p.validate).2)
    ∧ (p.lump_sum_investment < 0 ↔ "Lumpsum investment cannot be negative" ∈ (p.validate).2)
    ∧ ((∃ c, p.custom_equity_percentage = some c ∧ (c < 0 ∨ c > 100))
        ↔ "Custom equity percentage must be between 0 and 100" ∈ (p.validate).2)
    ∧ (∀ msg, create_plan p es ds ai sa dt = .error (.invalidProfile msg) →
        msg = "Invalid profile: " ++ String.intercalate ", " (p.validate).2) := by
  have hmain : ∀ msg, create_plan p es ds ai sa dt = .error (.invalidProfile msg)
      ↔ ((p.validate).1 = false
          ∧ msg = "Invalid profile: " ++ String.intercalate ", " (p.validate).2) := by
    intro msg
    unfold create_plan
    by_cases hv : (p.validate).1 = false
    · rw [if_pos hv]
      simp [hv, eq_comm]
    · rw [if_neg hv]
      cases hd : allocate_debt (calculate_equity_debt_split p).2 ds with
      | none => simp [hd, hv]
      | some da => simp [hd, hv]
  have hfalse : (p.validate).1 = false
      ↔ ((p.age < 18 ∨ p.age > 100) ∨ p.monthly_income < 0 ∨ p.monthly_investment < 0
          ∨ p.monthly_investment > p.monthly_income ∨ p.lump_sum_investment < 0
          ∨ (∃ c, p.custom_equity_percentage = some c ∧ (c < 0 ∨ c > 100))) := by
    cases hc : p.custom_equity_percentage with
    | none =>
      by_cases h1 : (p.age < 18 ∨ p.age > 100) <;>
      by_cases h2 : p.monthly_income < 0 <;>
      by_cases h3 : p.monthly_investment < 0 <;>
      by_cases h4 : p.monthly_investment > p.monthly_income <;>
      by_cases h5 : p.lump_sum_investment < 0 <;>
        simp [UserProfile.validate, hc, h1, h2, h3, h4, h5]
    | some c =>
      by_cases h1 : (p.age < 18 ∨ p.age > 100) <;>
      by_cases h2 : p.monthly_income < 0 <;>
      by_cases h3 : p.monthly_investment < 0 <;>
      by_cases h4 : p.monthly_investment > p.monthly_income <;>
      by_cases h5 : p.lump_sum_investment < 0 <;>
      by_cases h6 : (c < 0 ∨ c > 100) <;>
        simp [UserProfile.validate, hc, h1, h2, h3, h4, h5, h6]
  refine ⟨?_, ?_, ?_, ?_, ?_, ?_, ?_, fun msg h => ((hmain msg).mp h).2⟩
  · rw [← hfalse]
    constructor
    · rintro ⟨msg, h⟩
      exact ((hmain msg).mp h).1
    · intro hv
      exact ⟨_, (hmain _).mpr ⟨hv, rfl⟩⟩
  · cases hc : p.custom_equity_percentage <;>
      simp [UserProfile.validate, hc, mem_ite_singleton, mem_ite_singleton_nil]
  · cases hc : p.custom_equity_percentage <;>
      simp [UserProfile.validate, hc, mem_ite_singleton, mem_ite_singleton_nil]
  · cases hc : p.custom_equity_percentage <;>
      simp [UserProfile.validate, hc, mem_ite_singleton, mem_ite_singleton_nil]
  · cases hc : p.custom_equity_percentage <;>
      simp [UserProfile.validate, hc, mem_ite_singleton, mem_ite_singleton_nil]
  · cases hc : p.custom_equity_percentage <;>
      simp [UserProfile.validate, hc, mem_ite_singleton, mem_ite_singleton_nil]
  · cases hc : p.custom_equity_percentage <;>
      simp [UserProfile.validate, hc, mem_ite_singleton, mem_ite_singleton_nil]

/-- Witness for C1: a profile violating both the age rule and the
custom-equity rule has both messages in its validation error list. -/
theorem create_plan_validation_witness :
    "Age must be between 18 and 100"
      ∈ ((UserProfile.validate
          { age := 150, monthly_income := 1000, monthly_investment := 100,
            custom_equity_percentage := some 150 })).2
    ∧ "Custom equity percentage must be between 0 and 100"
      ∈ ((UserProfile.validate
          { age := 150, monthly_income := 1000, monthly_investment := 100,
            custom_equity_percentage := some 150 })).2 :=
  ⟨(create_plan_validation
      { age := 150, monthly_income := 1000, monthly_investment := 100,
        custom_equity_percentage := some 150 } none .long_term false 0 5).2.1.mp
    (Or.inr (by norm_num)),
   (create_plan_validation
      { age := 150, monthly_income := 1000, monthly_investment := 100,
        custom_equity_percentage := some 150 } none .long_term false 0 5).2.2.2.2.2.2.1.mp
    ⟨150, rfl, Or.inr (by norm_num)⟩⟩

/-- C5: with a positive total, `calculate_rebalance_trades` succeeds
and its result contains a category exactly when that category occurs in
either input map and its trade `targetPct/100 × totalValue − currentValue`
(with 0 for a key absent on either side) strictly exceeds 100 in
magnitude, the reported amount being that trade rounded to 2 decimals
(positive = buy, negative = sell). -/
theorem calculate_rebalance_trades_spec (cur tgt : List (String × ℚ))
    (hpos : 0 < (cur.map (·.2)).sum) :
    (calculate_rebalance_trades cur tgt).isOk = true
    ∧ ∀ ts, calculate_rebalance_trades cur tgt = .ok ts →
        ∀ f a, ((f, a) ∈ ts
          ↔ (f ∈ cur.map Prod.fst ∨ f ∈ tgt.map Prod.fst)
            ∧ 100 < |getDS tgt f 0 / 100 * (cur.map (·.2)).sum - getDS cur f 0|
            ∧ a = round2 (getDS tgt f 0 / 100 * (cur.map (·.2)).sum - getDS cur f 0)) := by
  simp only [calculate_rebalance_trades]
  rw [if_neg (not_le.mpr hpos)]
  refine ⟨rfl, fun ts hts f a => ?_⟩
  obtain rfl := (Except.ok.inj hts).symm
  simp only [List.mem_filterMap]
  constructor
  · rintro ⟨fund, hfund, hsome⟩
    by_cases hcond :
        |getDS tgt fund 0 / 100 * (cur.map (·.2)).sum - getDS cur fund 0| > 100
    · rw [if_pos hcond] at hsome
      obtain ⟨rfl, rfl⟩ := Prod.mk.injEq .. ▸ Option.some.inj hsome
      exact ⟨by simpa [List.mem_dedup, List.mem_append] using hfund, hcond, rfl⟩
    · rw [if_neg hcond] at hsome
      exact absurd hsome (by simp)
  · rintro ⟨hf, hcond, rfl⟩
    refine ⟨f, ?_, ?_⟩
    · simp only [List.mem_dedup, List.mem_append]
      exact hf
    · rw [if_pos hcond]

/-- Witness for C5: the portfolio `{largecap: 120000, midcap: 50000}`
with target `{largecap: 70, midcap: 30}` has positive total, so the
trade computation succeeds. -/
theorem calculate_rebalance_trades_spec_witness :
    (calculate_rebalance_trades [("largecap", 120000), ("midcap", 50000)]
      [("largecap", 70), ("midcap", 30)]).isOk = true :=
  (calculate_rebalance_trades_spec [("largecap", 120000), ("midcap", 50000)]
    [("largecap", 70), ("midcap", 30)] (by norm_num)).1

/-- C9: `calculate_fund_amounts` overwrites the `amount` of each row with
`round2 (percentage/100 × totalPool)` and returns the parallel
name→amount breakdown; and since `create_plan` invokes it twice on the
same (aliased) rows — monthly pool first, lump-sum pool second — every
`FundAllocation` stored in a returned plan carries the lump-sum amount
in its `amount` field, while the monthly and lump-sum breakdowns are
kept intact in the two separate maps of the plan. -/
theorem calculate_fund_amounts_overwrite :
    (∀ (allocations : List (String × FundAllocation)) (total : ℚ),
      (calculate_fund_amounts allocations total).1
          = allocations.map (fun na =>
              (na.1, { na.2 with amount := round2 ((na.2.percentage / 100) * total) }))
        ∧ (calculate_fund_amounts allocations total).2
          = allocations.map (fun na => (na.1, round2 ((na.2.percentage / 100) * total))))
    ∧ (∀ p es ds ai sa dt plan, create_plan p es ds ai sa dt = .ok plan →
        (∀ x ∈ plan.equity_allocations ++ plan.debt_allocations,
          x.2.amount = round2 ((x.2.percentage / 100) * p.lump_sum_investment))
        ∧ plan.monthly_sip_breakdown
            = (plan.equity_allocations ++ plan.debt_allocations).map
                (fun x => (x.1, round2 ((x.2.percentage / 100) * p.monthly_investment)))
        ∧ plan.lumpsum_breakdown
            = (plan.equity_allocations ++ plan.debt_allocations).map
                (fun x => (x.1, round2 ((x.2.percentage / 100) * p.lump_sum_investment)))) := by
  refine ⟨fun allocations total => ⟨rfl, rfl⟩, ?_⟩
  intro p es ds ai sa dt plan hok
  simp only [create_plan] at hok
  by_cases hv : (p.validate).1 = false
  · rw [if_pos hv] at hok
    exact absurd hok (by simp)
  · rw [if_neg hv] at hok
    cases hd : allocate_debt (calculate_equity_debt_split p).2 ds with
    | none =>
      rw [hd] at hok
      exact absurd hok (by simp)
    | some da =>
      rw [hd] at hok
      obtain rfl := (Except.ok.inj hok).symm
      refine ⟨?_, ?_, ?_⟩
      · intro x hx
        simp only [calculate_fund_amounts, List.take_append_drop, List.map_map] at hx
        obtain ⟨na, _, rfl⟩ := List.mem_map.mp hx
        rfl
      · simp only [calculate_fund_amounts, List.take_append_drop, List.map_map]
        rfl
      · simp only [calculate_fund_amounts, List.take_append_drop, List.map_map]
        rfl

/-- Witness for C9: a single 50% row against a pool of 1000 yields the
breakdown entry `round2 (50/100 × 1000)`. -/
theorem calculate_fund_amounts_overwrite_witness :
    (calculate_fund_amounts
        [("largecap", { category := "Equity", subcategory := "Largecap", percentage := 50 })]
        1000).2
      = [("largecap", round2 ((50 / 100) * 1000))] := by
  have h := (calculate_fund_amounts_overwrite.1
    [("largecap", { category := "Equity", subcategory := "Largecap", percentage := 50 })]
    1000).2
  simpa using h
